import Mathlib

/-!
Verification development for `kdsb17/model.py`.

The file shallowly embeds the model-building code of the repository: Keras
layers are represented symbolically (a layer record plus a symbolic tensor
graph), Keras shape inference is embedded as a function on shapes, and the
numpy post-processing of `GaussianMixtureCAE.predict` is embedded at the
shape-and-dtype level (its divergence from the specification is a shape
divergence, so no floating-point values are needed).

Components of the repository imported by `model.py` but whose source is not
available (`kdsb17.layers.SpatialPyramidPooling3D`, `kdsb17.activations.log_softmax`,
`kdsb17.advanced_activations.ShiftedELU`, `kdsb17.losses.build_gmd_log_likelihood`,
`kdsb17.callbacks.BatchLossCSVLogger`, `kdsb17.utils.file.makedir`) are modelled
from the specification; each such definition is marked in its doc comment.
-/

namespace Kdsb17

/-- Shape of a Keras tensor without the batch dimension; `none` is a dimension
that is unknown at graph-construction time (Keras `None`). -/
abbrev Shape := List (Option Nat)

/-- Triple of spatial extents (kernel sizes, strides, or dimensions). -/
abbrev Dim3 := Nat × Nat × Nat

/-- Padding mode of a Keras convolution. -/
inductive Padding where
  | same
  | valid
deriving DecidableEq, Repr

/-- Activation functions appearing in `model.py`. `logSoftmax` stands for
`kdsb17.activations.log_softmax` (not under `src/`), used only as an opaque
named activation here. -/
inductive ActKind where
  | relu
  | sigmoid
  | logSoftmax
deriving DecidableEq, Repr

/-- Configuration of a `Conv3D` or `Conv3DTranspose` layer. -/
structure ConvCfg where
  filters : Nat
  kernel_size : Dim3
  strides : Dim3
  padding : Padding
deriving DecidableEq, Repr

/-- Record of one Keras layer as created by `model.py`, with its configuration
and (optional) name. `batchNorm` keeps the `axis` argument; `spp3d` is the
`SpatialPyramidPooling3D` layer (modelled from the spec); `shiftedELU` is the
`ShiftedELU` advanced activation (modelled from the spec); `concat` is
`Concatenate(axis=-1)`. -/
inductive LayerRec where
  | inputL (shape : Shape)
  | conv3d (cfg : ConvCfg) (name : Option String)
  | conv3dT (cfg : ConvCfg) (name : Option String)
  | batchNorm (axis : Nat) (name : Option String)
  | activation (act : ActKind) (name : Option String)
  | dense (units : Nat) (act : Option ActKind) (name : Option String)
  | flatten (name : Option String)
  | shiftedELU (shift alpha : ℚ) (name : Option String)
  | spp3d (bins : List Nat) (name : Option String)
  | dropout (rate : ℚ)
  | concat (name : Option String)
deriving DecidableEq, Repr

/-- Name of a layer, as used by `Model.get_layer(name=...)` and by
`load_weights(..., by_name=True)`. Layers created without an explicit `name`
argument are represented with `none`. -/
def layer_name : LayerRec → Option String
  | .inputL _ => none
  | .conv3d _ n => n
  | .conv3dT _ n => n
  | .batchNorm _ n => n
  | .activation _ n => n
  | .dense _ _ n => n
  | .flatten n => n
  | .shiftedELU _ _ n => n
  | .spp3d _ n => n
  | .dropout _ => none
  | .concat n => n

/-- Symbolic Keras tensor: an input placeholder, a single-input layer applied
to a tensor, or a multi-input layer (`Concatenate`) applied to a list of
tensors. -/
inductive KTensor where
  | input (shape : Shape)
  | node (r : LayerRec) (t : KTensor)
  | merge (r : LayerRec) (ts : List KTensor)

/-- Output length of one spatial dimension of a convolution (Keras
`conv_output_length`): with `same` padding `ceil(d / stride)`; with `valid`
padding `(d - kernel) / stride + 1`, defined only when `kernel <= d`.
Unknown dimensions stay unknown. -/
def conv_out_dim (p : Padding) (k s : Nat) : Option Nat → Option (Option Nat)
  | none => some none
  | some d =>
    match p with
    | .same => some (some ((d + s - 1) / s))
    | .valid => if k ≤ d then some (some ((d - k) / s + 1)) else none

/-- Output length of one spatial dimension of a transposed convolution (Keras
`deconv_length`): with `same` padding `d * stride`; with `valid` padding
`d * stride + max (kernel - stride) 0`. -/
def convT_out_dim (p : Padding) (k s : Nat) : Option Nat → Option (Option Nat)
  | none => some none
  | some d =>
    match p with
    | .same => some (some (d * s))
    | .valid => some (some (d * s + (k - s)))

/-- Turns a list of optional values into an optional list (fails on any
`none`). -/
def allSome {α : Type} : List (Option α) → Option (List α)
  | [] => some []
  | x :: xs => do pure ((← x) :: (← allSome xs))

/-- Product of all dimensions of a shape (`Flatten`), unknown if any dimension
is unknown. -/
def shape_prod (s : Shape) : Option Nat :=
  s.foldr (fun d acc => do pure ((← d) * (← acc))) (some 1)

/-- Number of pooling bins produced by one level list of
`SpatialPyramidPooling3D`: each level with `b` bins per side yields `b ^ 3`
3D bins. Modelled from the spec: the layer itself (from `kdsb17.layers`) is
not under `src/`. -/
def spp_total_bins (bins : List Nat) : Nat :=
  (bins.map fun b => b * b * b).sum

/-- Shape inference for a single-input layer, following Keras build-time
rules. `Conv3D`/`Conv3DTranspose` expect a rank-4 input `(d1, d2, d3, ch)`;
`Dense` requires a known last dimension and replaces it with `units`;
`Flatten` multiplies all dimensions; `SpatialPyramidPooling3D` is modelled
from the spec as producing a fixed-length vector `channels * total_bins`
independent of the spatial dimensions (which is exactly its stated purpose);
`BatchNormalization`, `Activation`, `ShiftedELU` and `Dropout` preserve the
shape. -/
def apply_layer_shape : LayerRec → Shape → Option Shape
  | .inputL s, _ => some s
  | .conv3d cfg _, [a, b, c, _] => do
      let (k1, k2, k3) := cfg.kernel_size
      let (s1, s2, s3) := cfg.strides
      pure [← conv_out_dim cfg.padding k1 s1 a,
            ← conv_out_dim cfg.padding k2 s2 b,
            ← conv_out_dim cfg.padding k3 s3 c,
            some cfg.filters]
  | .conv3d _ _, _ => none
  | .conv3dT cfg _, [a, b, c, _] => do
      let (k1, k2, k3) := cfg.kernel_size
      let (s1, s2, s3) := cfg.strides
      pure [← convT_out_dim cfg.padding k1 s1 a,
            ← convT_out_dim cfg.padding k2 s2 b,
            ← convT_out_dim cfg.padding k3 s3 c,
            some cfg.filters]
  | .conv3dT _ _, _ => none
  | .batchNorm _ _, s => some s
  | .activation _ _, s => some s
  | .dense u _ _, s =>
      match s.getLast? with
      | some (some _) => some (s.dropLast ++ [some u])
      | _ => none
  | .flatten _, s => some [shape_prod s]
  | .shiftedELU _ _ _, s => some s
  | .spp3d bins _, [_, _, _, some ch] => some [some (ch * spp_total_bins bins)]
  | .spp3d _ _, _ => none
  | .dropout _, s => some s
  | .concat _, _ => none

/-- Shape of a `Concatenate(axis=-1)` output: all inputs must agree on every
dimension but the last, and the last dimensions (which must be known) are
summed. -/
def concat_shapes : List Shape → Option Shape
  | [] => none
  | s :: rest =>
    if rest.all (fun t => t.dropLast = s.dropLast) then do
      let lasts ← allSome ((s :: rest).map (fun t => t.getLast?))
      let vals ← allSome lasts
      pure (s.dropLast ++ [some vals.sum])
    else none

/-- Shape inference for a multi-input layer. -/
def merge_shape : LayerRec → List Shape → Option Shape
  | .concat _, ss => concat_shapes ss
  | _, _ => none

mutual

/-- Shape of a symbolic tensor, by Keras build-time shape inference; `none`
when the graph does not build. -/
def shapeOf : KTensor → Option Shape
  | .input s => some s
  | .node r t => shapeOf t >>= apply_layer_shape r
  | .merge r ts => shapesOf ts >>= merge_shape r

/-- Shapes of a list of symbolic tensors (`none` when any of them does not
build). -/
def shapesOf : List KTensor → Option (List Shape)
  | [] => some []
  | t :: ts => do pure ((← shapeOf t) :: (← shapesOf ts))

end

/-- State of graph construction: the list of layers created so far (in
creation order, mirroring the execution order of the Python code) and the
current symbolic tensor. -/
abbrev BuildSt := List LayerRec × KTensor

/-- Creates one single-input layer and applies it to the current tensor
(the Python pattern `layer = SomeLayer(...)(layer)`). -/
def appLayer (r : LayerRec) (st : BuildSt) : BuildSt :=
  (st.1 ++ [r], .node r st.2)

/-- Loss functions appearing in `model.py`. `gmdLogLikelihood c m` stands for
`build_gmd_log_likelihood(c, m)` from `kdsb17.losses` (not under `src/`),
used here as an opaque loss identified by its two arguments. -/
inductive Loss where
  | gmdLogLikelihood (c m : Nat)
  | binaryCrossentropy
deriving DecidableEq, Repr

/-- Arguments of `NakedModel.__init__` (`model.py` lines 36-45). -/
structure NakedModel where
  optimizer : String
  es_patience : Nat
  model_path : String
  weights_name_format : String
  histogram_freq : Nat
deriving DecidableEq, Repr

/-- Arguments of `Encoder.__init__` (`model.py` lines 157-161). -/
structure Encoder where
  nb_filters_per_layer : List Nat
  kernel_size : Dim3
  padding : Padding
  batch_normalization : Bool
deriving DecidableEq, Repr

/-- Embeds `Encoder._custom_conv3d` (`model.py` lines 163-174): a `Conv3D`
with the encoder's kernel size and padding, an optional
`BatchNormalization(mode=0, axis=1)`, and a `relu` activation, with names
derived from the block name. -/
def Encoder.custom_conv3d (e : Encoder) (st : BuildSt) (nb_filters : Nat)
    (strides : Dim3) (name : String) : BuildSt :=
  let st := appLayer
    (.conv3d ⟨nb_filters, e.kernel_size, strides, e.padding⟩
      (some ("encoder_conv_" ++ name))) st
  let st := if e.batch_normalization then
      appLayer (.batchNorm 1 (some ("encoder_bn_" ++ name))) st
    else st
  appLayer (.activation .relu (some ("encoder_act_" ++ name))) st

/-- Embeds the loop body sequence of `Encoder._build_encoder_layers`
(`model.py` lines 176-185): for each `(i, nb_filters)` of the enumerated
filter list, a stride-`(1,1,1)` block named `1-2_i` followed by a
stride-`(2,2,2)` block named `2-1_i`. -/
def Encoder.build_encoder_from (e : Encoder) : Nat → List Nat → BuildSt → BuildSt
  | _, [], st => st
  | i, f :: rest, st =>
      Encoder.build_encoder_from e (i + 1) rest
        (e.custom_conv3d (e.custom_conv3d st f (1, 1, 1) ("1-2_" ++ toString i))
          f (2, 2, 2) ("2-1_" ++ toString i))

/-- Embeds `Encoder._build_encoder_layers` (`model.py` lines 176-185). -/
def Encoder.build_encoder_layers (e : Encoder) (st : BuildSt) : BuildSt :=
  e.build_encoder_from 0 e.nb_filters_per_layer st

/-- Arguments and attributes of `GaussianMixtureCAE.__init__`
(`model.py` lines 200-218). The loss assigned on lines 216-218 is exposed as
`GaussianMixtureCAE.loss` below. -/
structure GaussianMixtureCAE extends Encoder, NakedModel where
  n_gaussians : Nat
  input_shape : Dim3
deriving DecidableEq, Repr

/-- Attribute `self.n_dense_log_prior = 128` (`model.py` line 213). -/
def GaussianMixtureCAE.n_dense_log_prior (_ : GaussianMixtureCAE) : Nat := 128

/-- Attribute `self.n_dense_sigma_sq = 128` (`model.py` line 214). -/
def GaussianMixtureCAE.n_dense_sigma_sq (_ : GaussianMixtureCAE) : Nat := 128

/-- Loss assigned by `GaussianMixtureCAE.__init__` (`model.py` lines
216-218): `build_gmd_log_likelihood(c, n_gaussians)` with `c = z * y * x`. -/
def GaussianMixtureCAE.loss (g : GaussianMixtureCAE) : Loss :=
  let (z, y, x) := g.input_shape
  Loss.gmdLogLikelihood (z * y * x) g.n_gaussians

/-- Embeds `GaussianMixtureCAE._custom_conv3dtranspose` (`model.py` lines
220-230). -/
def GaussianMixtureCAE.custom_conv3dtranspose (g : GaussianMixtureCAE)
    (st : BuildSt) (nb_filters : Nat) (strides : Dim3) (name : String) : BuildSt :=
  let st := appLayer
    (.conv3dT ⟨nb_filters, g.kernel_size, strides, g.padding⟩
      (some ("decoder_conv_" ++ name))) st
  let st := if g.batch_normalization then
      appLayer (.batchNorm 1 (some ("decoder_bn_" ++ name))) st
    else st
  appLayer (.activation .relu (some ("decoder_act_" ++ name))) st

/-- Embeds the loop of `GaussianMixtureCAE._build_decoder_layers`
(`model.py` lines 232-241): for each `(i, nb_filters)` of the enumerated
reversed filter list, a stride-`(2,2,2)` block named `2-1_i` followed by a
stride-`(1,1,1)` block named `1-2_i`. -/
def GaussianMixtureCAE.build_decoder_from (g : GaussianMixtureCAE) :
    Nat → List Nat → BuildSt → BuildSt
  | _, [], st => st
  | i, f :: rest, st =>
      g.build_decoder_from (i + 1) rest
        (g.custom_conv3dtranspose
          (g.custom_conv3dtranspose st f (2, 2, 2) ("2-1_" ++ toString i))
          f (1, 1, 1) ("1-2_" ++ toString i))

/-- Embeds `GaussianMixtureCAE._build_decoder_layers` (`model.py` lines
232-241); the filter list is reversed (`self.nb_filters_per_layer[::-1]`). -/
def GaussianMixtureCAE.build_decoder_layers (g : GaussianMixtureCAE)
    (st : BuildSt) : BuildSt :=
  g.build_decoder_from 0 g.nb_filters_per_layer.reverse st

/-- Embeds `GaussianMixtureCAE._build_gmd_layers` (`model.py` lines 243-268):
the log-prior branch (Conv3D(1) on the encoded tensor, Flatten, Dense(128,
relu), Dense(m, log_softmax)), the means branch (Conv3D(m) on the decoded
tensor, Flatten), the variance branch (Conv3D(1) on the encoded tensor,
Flatten, Dense(128, relu), Dense(m), ShiftedELU(shift=1.0, alpha=1.0)), and
the concatenation `[log_prior, sigma_sq, mu]` along the last axis. All the
Conv3D layers here use `padding='same'` and default strides. -/
def GaussianMixtureCAE.build_gmd_layers (g : GaussianMixtureCAE)
    (rs : List LayerRec) (encoded decoded : KTensor) : List LayerRec × KTensor :=
  let (rs, log_prior) := appLayer
    (.conv3d ⟨1, g.kernel_size, (1, 1, 1), .same⟩ (some "log_prior_conv3d")) (rs, encoded)
  let (rs, log_prior) := appLayer (.flatten (some "log_prior_flatten")) (rs, log_prior)
  let (rs, log_prior) := appLayer
    (.dense g.n_dense_log_prior (some .relu) (some "log_prior_dense_1")) (rs, log_prior)
  let (rs, log_prior) := appLayer
    (.dense g.n_gaussians (some .logSoftmax) (some "log_prior")) (rs, log_prior)
  let (rs, mu) := appLayer
    (.conv3d ⟨g.n_gaussians, g.kernel_size, (1, 1, 1), .same⟩ (some "mu_conv3d")) (rs, decoded)
  let (rs, mu) := appLayer (.flatten (some "mu")) (rs, mu)
  let (rs, sigma_sq) := appLayer
    (.conv3d ⟨1, g.kernel_size, (1, 1, 1), .same⟩ (some "sigma_sq_conv3d")) (rs, encoded)
  let (rs, sigma_sq) := appLayer (.flatten (some "sigma_sq_flatten")) (rs, sigma_sq)
  let (rs, sigma_sq) := appLayer
    (.dense g.n_dense_sigma_sq (some .relu) (some "sigma_sq_dense_1")) (rs, sigma_sq)
  let (rs, sigma_sq) := appLayer
    (.dense g.n_gaussians none (some "sigma_sq_dense_2")) (rs, sigma_sq)
  let (rs, sigma_sq) := appLayer (.shiftedELU 1 1 (some "sigma_sq")) (rs, sigma_sq)
  (rs ++ [.concat (some "gmd")], .merge (.concat (some "gmd")) [log_prior, sigma_sq, mu])

/-- Result of a `_build_layers` call: the created layers in creation order,
the input tensor and the output tensor. -/
structure Built where
  recs : List LayerRec
  input : KTensor
  output : KTensor

/-- Embeds `GaussianMixtureCAE._build_layers` (`model.py` lines 270-281):
`Input(shape=(z, y, x, 1))`, the encoder, the decoder (applied to the encoded
tensor), and the GMD output layers (applied to the encoded and decoded
tensors). -/
def GaussianMixtureCAE.build_layers (g : GaussianMixtureCAE) : Built :=
  let (z, y, x) := g.input_shape
  let s : Shape := [some z, some y, some x, some 1]
  let st0 : BuildSt := ([.inputL s], .input s)
  let st1 := g.toEncoder.build_encoder_layers st0
  let st2 := g.build_decoder_layers st1
  let (rs, out) := g.build_gmd_layers st2.1 st1.2 st2.2
  ⟨rs, st0.2, out⟩

/-- Arguments and attributes of `LungNet.__init__` (`model.py` lines
335-349); `LungNet` does not take a `histogram_freq` argument, so
`NakedModel.__init__` receives its default `0` (see `LungNet.toNakedModel`
below). The loss assigned on line 349 is exposed as `LungNet.loss`. -/
structure LungNet extends Encoder where
  spp_nb_bins_per_level : List Nat
  n_dense : List Nat
  dropout_rate : ℚ
  optimizer : String
  es_patience : Nat
  model_path : String
  weights_name_format : String
deriving DecidableEq, Repr

/-- NakedModel arguments of a `LungNet`; `histogram_freq` is the `NakedModel`
default `0` since `LungNet.__init__` does not pass it (`model.py` line 342). -/
def LungNet.toNakedModel (l : LungNet) : NakedModel :=
  ⟨l.optimizer, l.es_patience, l.model_path, l.weights_name_format, 0⟩

/-- Loss assigned by `LungNet.__init__` (`model.py` line 349). -/
def LungNet.loss (_ : LungNet) : Loss := Loss.binaryCrossentropy

/-- Embeds the dense-layer loop of `LungNet._build_classifier_layers`
(`model.py` lines 356-359): for each width in `n_dense`, a relu `Dense`
followed by a `Dropout` when `dropout_rate` is truthy ( nonzero). These
layers are created without names. -/
def LungNet.dense_stack (l : LungNet) : List Nat → BuildSt → BuildSt
  | [], st => st
  | n :: rest, st =>
      let st := appLayer (.dense n (some .relu) none) st
      let st := if l.dropout_rate ≠ 0 then appLayer (.dropout l.dropout_rate) st else st
      l.dense_stack rest st

/-- Embeds `LungNet._build_classifier_layers` (`model.py` lines 351-362):
`SpatialPyramidPooling3D` named `spp3d`, the dense stack, and a final
sigmoid `Dense(1)`. -/
def LungNet.build_classifier_layers (l : LungNet) (st : BuildSt) : BuildSt :=
  let st := appLayer (.spp3d l.spp_nb_bins_per_level (some "spp3d")) st
  let st := l.dense_stack l.n_dense st
  appLayer (.dense 1 (some .sigmoid) none) st

/-- Embeds `LungNet._build_layers` for a given input shape; the source
(`model.py` lines 364-374) always uses `Input(shape=(None, None, None, 1))`,
see `LungNet.build_layers`. -/
def LungNet.build_from (l : LungNet) (s : Shape) : Built :=
  let st0 : BuildSt := ([.inputL s], .input s)
  let st1 := l.toEncoder.build_encoder_layers st0
  let st2 := l.build_classifier_layers st1
  ⟨st2.1, st0.2, st2.2⟩

/-- Embeds `LungNet._build_layers` (`model.py` lines 364-374):
`Input(shape=(None, None, None, 1))`, the encoder, and the classifier. -/
def LungNet.build_layers (l : LungNet) : Built :=
  l.build_from [none, none, none, some 1]

/-- Keras training callbacks as configured in `NakedModel._build_callbacks`.
`batchLossCSVLogger` stands for `kdsb17.callbacks.BatchLossCSVLogger` (not
under `src/`), modelled from the spec as a per-batch loss CSV logger
identified by its file name. -/
inductive CallbackSpec where
  | modelCheckpoint (filepath monitor : String) (save_best_only save_weights_only : Bool)
  | earlyStopping (monitor : String) (min_delta patience : Nat)
  | csvLogger (filename : String)
  | batchLossCSVLogger (filename : String)
  | tensorBoard (log_dir : String) (histogram_freq : Nat) (write_grads : Bool)
  | terminateOnNaN
deriving DecidableEq, Repr

/-- Observable effects of training-related methods. `makedir` stands for
`kdsb17.utils.file.makedir` (not under `src/`); modelled from the spec: it
creates the given directory. `fit` is the call to Keras
`Model.fit_generator` with the given callback list. -/
inductive TrainEffect where
  | makedir (path : String)
  | fit (callbacks : List CallbackSpec)
deriving DecidableEq, Repr

/-- Models `os.path.join` for the relative second components used in
`model.py`. -/
def path_join (a b : String) : String :=
  if a.endsWith "/" then a ++ b else a ++ "/" ++ b

/-- Embeds `NakedModel._build_callbacks` (`model.py` lines 52-71): it first
calls `makedir(self.model_path)` and returns the six callbacks in source
order. -/
def NakedModel.build_callbacks (nm : NakedModel) : List TrainEffect × List CallbackSpec :=
  ([.makedir nm.model_path],
   [.modelCheckpoint (path_join nm.model_path nm.weights_name_format) "val_loss" true true,
    .earlyStopping "val_loss" 0 nm.es_patience,
    .csvLogger (path_join nm.model_path "epoch_log.csv"),
    .batchLossCSVLogger (path_join nm.model_path "batch_log.csv"),
    .tensorBoard (path_join nm.model_path "tensorboard") nm.histogram_freq
      (decide (0 < nm.histogram_freq)),
    .terminateOnNaN])

/-- Effect trace of `NakedModel.fit_generator` (`model.py` lines 111-135):
build the callbacks (which creates the model directory), then call Keras
`fit_generator` with them. -/
def NakedModel.fit_generator (nm : NakedModel) : List TrainEffect :=
  let (effs, cbs) := nm.build_callbacks
  effs ++ [.fit cbs]

/-- Flag `by_name=True` of the `load_weights` call in
`NakedModel.load_weights_from_file` (`model.py` line 108). -/
def load_weights_by_name : Bool := true

/-- Shape-and-dtype view of a numpy array, as far as
`NakedModel._check_input_array` and the shape behaviour of `predict` are
concerned. -/
structure NpArray where
  dtype : String
  shape : List Nat
deriving DecidableEq, Repr

/-- Embeds `NakedModel._check_input_array` (`model.py` lines 137-144):
raises `ValueError` (modelled as `Except.error` with the source message) when
the dtype is not float32, then when the array is not 5-dimensional, then when
the last dimension is not 1. -/
def NakedModel.check_input_array (x : NpArray) : Except String Unit :=
  if x.dtype ≠ "float32" then
    Except.error "Input array must be of type float32."
  else if x.shape.length ≠ 5 then
    Except.error "Input array must have exactly 5 dimensions: (samples, z, y, z, channels)"
  else if x.shape.getLast? ≠ some 1 then
    Except.error "Size of last dimension of input array must be exactly 1."
  else
    Except.ok ()

/-- Broadcast of two numpy shapes, aligning trailing axes; a dimension of 1
broadcasts against anything. The recursion is on the reversed shapes. -/
def broadcast_rev : List Nat → List Nat → Option (List Nat)
  | [], ys => some ys
  | xs, [] => some xs
  | x :: xs, y :: ys => do
      let r ← broadcast_rev xs ys
      if x = y then pure (x :: r)
      else if x = 1 then pure (y :: r)
      else if y = 1 then pure (x :: r)
      else none

/-- Broadcast of two numpy shapes. -/
def np_broadcast (a b : List Nat) : Option (List Nat) :=
  (broadcast_rev a.reverse b.reverse).map List.reverse

/-- Broadcast of a list of numpy shapes (as performed over the index arrays
of an advanced-indexing expression). -/
def np_broadcast_all : List (List Nat) → Option (List Nat)
  | [] => some []
  | s :: rest => rest.foldlM np_broadcast s

/-- Embeds `GaussianMixtureCAE.predict` (`model.py` lines 283-314) at the
shape-and-dtype level. Step by step: `_check_input_array`;
`pred = self._model.predict(array)` has shape `(samples, w)` where `w` is the
width of the model's GMD output layer; `np.split(pred, [m, 2*m], axis=1)`
yields widths `m`, `m`, `w - 2*m` (with numpy's clamping slice semantics);
`np.reshape(mu, (-1, z, y, x, m))` requires divisibility;
`which = (np.exp(log_prior)/np.sqrt(sigma_sq)).argmax(axis=1)` broadcasts the
two `(samples, m)` operands and removes axis 1;
`np.indices(array.shape[:-1])` gives four index arrays of shape
`(samples, z, y, x)`; the advanced indexing `mu[sample, z, y, x, which]`
broadcasts the five index shapes together (an `IndexError` when they do not
broadcast); finally `np.expand_dims(..., axis=4)` inserts a trailing 1. -/
def GaussianMixtureCAE.predict (g : GaussianMixtureCAE) (x : NpArray) :
    Except String NpArray := do
  NakedModel.check_input_array x
  let w ← match shapeOf g.build_layers.output with
    | some [some w] => Except.ok w
    | _ => Except.error "model output shape unavailable"
  let samples := x.shape.headD 0
  let m := g.n_gaussians
  let lpW := min m w
  let ssW := min (2 * m) w - lpW
  let muW := w - min (2 * m) w
  let (dz, dy, dx) ← match x.shape with
    | [_, a, b, c, _] => Except.ok (a, b, c)
    | _ => Except.error "expected 5 dimensions"
  let vol := dz * dy * dx * m
  if vol = 0 then Except.error "cannot reshape"
  else if samples * muW % vol ≠ 0 then Except.error "cannot reshape"
  else do
    let ratioShape ← match np_broadcast [samples, lpW] [samples, ssW] with
      | some s => Except.ok s
      | none => Except.error "operands could not be broadcast together"
    let whichShape := ratioShape.eraseIdx 1
    let idxShape := x.shape.dropLast
    let outShape ← match np_broadcast_all [idxShape, idxShape, idxShape, idxShape, whichShape] with
      | some s => Except.ok s
      | none =>
          Except.error "shape mismatch: indexing arrays could not be broadcast together"
    Except.ok ⟨"float32", outShape.take 4 ++ [1] ++ outShape.drop 4⟩

/-- Embeds `LungNet.predict` (`model.py` lines 379-389) at the
shape-and-dtype level: `_check_input_array`, then `self._model.predict(x)`,
whose shape is `(samples, w)` for the model's output width `w`. -/
def LungNet.predict (l : LungNet) (x : NpArray) : Except String NpArray := do
  NakedModel.check_input_array x
  let w ← match shapeOf l.build_layers.output with
    | some [some w] => Except.ok w
    | _ => Except.error "model output shape unavailable"
  Except.ok ⟨"float32", [x.shape.headD 0, w]⟩

/-- A compiled Keras model as produced by `NakedModel.build_model`: the
layers with their `trainable` flags, and the `compile` arguments. -/
structure BuiltModel where
  layers : List (LayerRec × Bool)
  optimizer : String
  lossFn : Loss
  metrics : List String
  compiled : Bool
deriving DecidableEq

/-- Embeds `Model.get_layer(name=...).trainable = False` for one name:
the first layer with that name gets `trainable = False`; `none` when no
layer has the name (Keras `get_layer` raises `ValueError` then). -/
def set_layer_untrainable : List (LayerRec × Bool) → String → Option (List (LayerRec × Bool))
  | [], _ => none
  | l :: rest, nm =>
    if layer_name l.1 = some nm then some ((l.1, false) :: rest)
    else (set_layer_untrainable rest nm).map (l :: ·)

/-- Embeds the freeze loop of `NakedModel.build_model` (`model.py` lines
88-93): nothing when `freeze` is `None`; otherwise each listed name is looked
up with `get_layer` and its layer set untrainable. -/
def apply_freeze (layers : List (LayerRec × Bool)) :
    Option (List String) → Except String (List (LayerRec × Bool))
  | none => Except.ok layers
  | some names =>
      names.foldlM (fun ls nm =>
        match set_layer_untrainable ls nm with
        | some out => Except.ok out
        | none => Except.error ("No such layer: " ++ nm)) layers

/-- Embeds `NakedModel.build_model` (`model.py` lines 79-95) given the layers
created by `_build_layers` (all Keras layers start with `trainable = True`),
the optimizer, and the loss and metrics used by the (possibly overridden)
`_compile_model`: applies the freeze list, then compiles. -/
def build_model (recs : List LayerRec) (opt : String) (l : Loss)
    (metrics : List String) (freeze : Option (List String)) :
    Except String BuiltModel := do
  let layers ← apply_freeze (recs.map fun r => (r, true)) freeze
  Except.ok ⟨layers, opt, l, metrics, true⟩

/-- Embeds `GaussianMixtureCAE.build_model`: compiled by
`NakedModel._compile_model` (`model.py` lines 76-77) with `self.optimizer`
and `self._loss` and no metrics. -/
def GaussianMixtureCAE.build_model (g : GaussianMixtureCAE)
    (freeze : Option (List String)) : Except String BuiltModel :=
  Kdsb17.build_model g.build_layers.recs g.optimizer g.loss [] freeze

/-- Embeds `LungNet.build_model`: compiled by the overridden
`LungNet._compile_model` (`model.py` lines 376-377) with
`metrics=['accuracy']`. -/
def LungNet.build_model (l : LungNet) (freeze : Option (List String)) :
    Except String BuiltModel :=
  Kdsb17.build_model l.build_layers.recs l.optimizer l.loss ["accuracy"] freeze

/-- Modelled from the spec: the ELU activation used by `ShiftedELU`
(`kdsb17.advanced_activations`, not under `src/`): `x` for positive `x` and
`alpha * (exp x - 1)` otherwise. -/
noncomputable def elu (alpha x : ℝ) : ℝ :=
  if 0 < x then x else alpha * (Real.exp x - 1)

/-- Modelled from the spec: the `ShiftedELU(shift, alpha)` activation
(`kdsb17.advanced_activations`, not under `src/`): an ELU shifted by a
constant, `elu(x, alpha) + shift`. -/
noncomputable def shifted_elu (shift alpha x : ℝ) : ℝ :=
  elu alpha x + shift

/-- Layer records created by one `Encoder._custom_conv3d` call (closed form,
related to the builder by `custom_conv3d_eq`). -/
def custom_conv3d_recs (e : Encoder) (f : Nat) (s : Dim3) (nm : String) : List LayerRec :=
  [.conv3d ⟨f, e.kernel_size, s, e.padding⟩ (some ("encoder_conv_" ++ nm))]
  ++ (if e.batch_normalization then [.batchNorm 1 (some ("encoder_bn_" ++ nm))] else [])
  ++ [.activation .relu (some ("encoder_act_" ++ nm))]

/-- Symbolic tensor produced by one `Encoder._custom_conv3d` call (closed
form, related to the builder by `custom_conv3d_eq`). -/
def conv_block_tensor (e : Encoder) (f : Nat) (s : Dim3) (nm : String) (t : KTensor) : KTensor :=
  let t := KTensor.node (.conv3d ⟨f, e.kernel_size, s, e.padding⟩ (some ("encoder_conv_" ++ nm))) t
  let t := if e.batch_normalization then
      KTensor.node (.batchNorm 1 (some ("encoder_bn_" ++ nm))) t
    else t
  KTensor.node (.activation .relu (some ("encoder_act_" ++ nm))) t

/-- Layer records created by one `GaussianMixtureCAE._custom_conv3dtranspose`
call (closed form). -/
def custom_conv3dT_recs (e : Encoder) (f : Nat) (s : Dim3) (nm : String) : List LayerRec :=
  [.conv3dT ⟨f, e.kernel_size, s, e.padding⟩ (some ("decoder_conv_" ++ nm))]
  ++ (if e.batch_normalization then [.batchNorm 1 (some ("decoder_bn_" ++ nm))] else [])
  ++ [.activation .relu (some ("decoder_act_" ++ nm))]

/-- Symbolic tensor produced by one `GaussianMixtureCAE._custom_conv3dtranspose`
call (closed form). -/
def convT_block_tensor (e : Encoder) (f : Nat) (s : Dim3) (nm : String) (t : KTensor) : KTensor :=
  let t := KTensor.node (.conv3dT ⟨f, e.kernel_size, s, e.padding⟩ (some ("decoder_conv_" ++ nm))) t
  let t := if e.batch_normalization then
      KTensor.node (.batchNorm 1 (some ("decoder_bn_" ++ nm))) t
    else t
  KTensor.node (.activation .relu (some ("decoder_act_" ++ nm))) t

/-- Layer records created by `Encoder._build_encoder_layers` from block index
`i` on (closed form, related to the builder by `build_encoder_from_eq`). -/
def encoder_recs_from (e : Encoder) : Nat → List Nat → List LayerRec
  | _, [] => []
  | i, f :: rest =>
      custom_conv3d_recs e f (1, 1, 1) ("1-2_" ++ toString i)
      ++ custom_conv3d_recs e f (2, 2, 2) ("2-1_" ++ toString i)
      ++ encoder_recs_from e (i + 1) rest

/-- Symbolic tensor produced by `Encoder._build_encoder_layers` from block
index `i` on (closed form). -/
def encoder_tensor_from (e : Encoder) : Nat → List Nat → KTensor → KTensor
  | _, [], t => t
  | i, f :: rest, t =>
      encoder_tensor_from e (i + 1) rest
        (conv_block_tensor e f (2, 2, 2) ("2-1_" ++ toString i)
          (conv_block_tensor e f (1, 1, 1) ("1-2_" ++ toString i) t))

/-- All layer records created by `Encoder._build_encoder_layers`. -/
def encoder_recs (e : Encoder) : List LayerRec :=
  encoder_recs_from e 0 e.nb_filters_per_layer

/-- Layer records created by `GaussianMixtureCAE._build_decoder_layers` from
block index `i` on (closed form). -/
def decoder_recs_from (e : Encoder) : Nat → List Nat → List LayerRec
  | _, [] => []
  | i, f :: rest =>
      custom_conv3dT_recs e f (2, 2, 2) ("2-1_" ++ toString i)
      ++ custom_conv3dT_recs e f (1, 1, 1) ("1-2_" ++ toString i)
      ++ decoder_recs_from e (i + 1) rest

/-- Symbolic tensor produced by `GaussianMixtureCAE._build_decoder_layers`
from block index `i` on (closed form). -/
def decoder_tensor_from (e : Encoder) : Nat → List Nat → KTensor → KTensor
  | _, [], t => t
  | i, f :: rest, t =>
      decoder_tensor_from e (i + 1) rest
        (convT_block_tensor e f (1, 1, 1) ("1-2_" ++ toString i)
          (convT_block_tensor e f (2, 2, 2) ("2-1_" ++ toString i) t))

/-- All layer records created by `GaussianMixtureCAE._build_decoder_layers`
(the filter list is traversed reversed). -/
def decoder_recs (e : Encoder) : List LayerRec :=
  decoder_recs_from e 0 e.nb_filters_per_layer.reverse

/-- Configurations of the `Conv3D` layers of a layer list. -/
def conv_cfgs (rs : List LayerRec) : List ConvCfg :=
  rs.filterMap fun r => match r with | .conv3d c _ => some c | _ => none

/-- Configurations of the `Conv3DTranspose` layers of a layer list. -/
def convT_cfgs (rs : List LayerRec) : List ConvCfg :=
  rs.filterMap fun r => match r with | .conv3dT c _ => some c | _ => none

/-- Symbolic tensor produced by the dense-layer loop of
`LungNet._build_classifier_layers` (closed form). -/
def dense_stack_tensor (l : LungNet) : List Nat → KTensor → KTensor
  | [], t => t
  | n :: rest, t =>
      let t := KTensor.node (.dense n (some .relu) none) t
      let t := if l.dropout_rate ≠ 0 then KTensor.node (.dropout l.dropout_rate) t else t
      dense_stack_tensor l rest t

/-- Ceiling of the half of a natural number; the effect of one encoder block
(its stride-2 `same` convolution) on a spatial dimension. -/
def ceil_half (d : Nat) : Nat := (d + 1) / 2

/-- Whether a layer is named by one of the names of a freeze list (the layers
set untrainable by `build_model`). -/
def frozen_in (names : List String) (r : LayerRec) : Bool :=
  match layer_name r with
  | some n => decide (n ∈ names)
  | none => false

/-- Layer records created by the dense-layer loop of
`LungNet._build_classifier_layers` (closed form). -/
def dense_stack_recs (l : LungNet) : List Nat → List LayerRec
  | [] => []
  | n :: rest =>
      [.dense n (some .relu) none]
      ++ (if l.dropout_rate ≠ 0 then [.dropout l.dropout_rate] else [])
      ++ dense_stack_recs l rest

/-- The log-prior branch of the GMD output layers (closed form of the first
part of `_build_gmd_layers`). -/
def log_prior_tensor (g : GaussianMixtureCAE) (encoded : KTensor) : KTensor :=
  .node (.dense g.n_gaussians (some .logSoftmax) (some "log_prior"))
    (.node (.dense g.n_dense_log_prior (some .relu) (some "log_prior_dense_1"))
      (.node (.flatten (some "log_prior_flatten"))
        (.node (.conv3d ⟨1, g.kernel_size, (1, 1, 1), .same⟩ (some "log_prior_conv3d"))
          encoded)))

/-- The means branch of the GMD output layers (closed form). -/
def mu_tensor (g : GaussianMixtureCAE) (decoded : KTensor) : KTensor :=
  .node (.flatten (some "mu"))
    (.node (.conv3d ⟨g.n_gaussians, g.kernel_size, (1, 1, 1), .same⟩ (some "mu_conv3d"))
      decoded)

/-- The variances branch of the GMD output layers (closed form). -/
def sigma_sq_tensor (g : GaussianMixtureCAE) (encoded : KTensor) : KTensor :=
  .node (.shiftedELU 1 1 (some "sigma_sq"))
    (.node (.dense g.n_gaussians none (some "sigma_sq_dense_2"))
      (.node (.dense g.n_dense_sigma_sq (some .relu) (some "sigma_sq_dense_1"))
        (.node (.flatten (some "sigma_sq_flatten"))
          (.node (.conv3d ⟨1, g.kernel_size, (1, 1, 1), .same⟩ (some "sigma_sq_conv3d"))
            encoded))))

/-- The GMD output tensor (closed form of `_build_gmd_layers`): concatenation
of log-priors, variances and means, in this order. -/
def gmd_tensor (g : GaussianMixtureCAE) (encoded decoded : KTensor) : KTensor :=
  .merge (.concat (some "gmd"))
    [log_prior_tensor g encoded, sigma_sq_tensor g encoded, mu_tensor g decoded]

/-- Layer records created by `_build_gmd_layers`, in creation order. -/
def gmd_recs (g : GaussianMixtureCAE) : List LayerRec :=
  [.conv3d ⟨1, g.kernel_size, (1, 1, 1), .same⟩ (some "log_prior_conv3d"),
   .flatten (some "log_prior_flatten"),
   .dense g.n_dense_log_prior (some .relu) (some "log_prior_dense_1"),
   .dense g.n_gaussians (some .logSoftmax) (some "log_prior"),
   .conv3d ⟨g.n_gaussians, g.kernel_size, (1, 1, 1), .same⟩ (some "mu_conv3d"),
   .flatten (some "mu"),
   .conv3d ⟨1, g.kernel_size, (1, 1, 1), .same⟩ (some "sigma_sq_conv3d"),
   .flatten (some "sigma_sq_flatten"),
   .dense g.n_dense_sigma_sq (some .relu) (some "sigma_sq_dense_1"),
   .dense g.n_gaussians none (some "sigma_sq_dense_2"),
   .shiftedELU 1 1 (some "sigma_sq"),
   .concat (some "gmd")]

/-- Concrete small `GaussianMixtureCAE` used by witnesses: two Gaussians,
input shape `(2, 2, 2)`, one encoder block of 4 filters. -/
def gmcae_small : GaussianMixtureCAE :=
  { nb_filters_per_layer := [4], kernel_size := (3, 3, 3), padding := .same,
    batch_normalization := false, optimizer := "adam", es_patience := 10,
    model_path := "/tmp/", weights_name_format := "weights.hdf5",
    histogram_freq := 0, n_gaussians := 2, input_shape := (2, 2, 2) }

/-- The `GaussianMixtureCAE` with all constructor defaults (in particular
`nb_filters_per_layer=(64, 128, 256)` and `padding='same'`), one Gaussian and
input shape `(1, 1, 1)`. -/
def gmcae_default_111 : GaussianMixtureCAE :=
  { nb_filters_per_layer := [64, 128, 256], kernel_size := (3, 3, 3), padding := .same,
    batch_normalization := false, optimizer := "adam", es_patience := 10,
    model_path := "/tmp/", weights_name_format := "weights.hdf5",
    histogram_freq := 0, n_gaussians := 1, input_shape := (1, 1, 1) }

/-- Concrete small `LungNet` used by witnesses. -/
def lungnet_small : LungNet :=
  { nb_filters_per_layer := [4], kernel_size := (3, 3, 3), padding := .same,
    batch_normalization := false, optimizer := "adam", es_patience := 10,
    model_path := "/tmp/", weights_name_format := "weights.hdf5",
    spp_nb_bins_per_level := [1, 2, 4], n_dense := [8, 8], dropout_rate := 1/2 }

theorem shapeOf_input (s : Shape) : shapeOf (.input s) = some s := rfl

theorem shapeOf_node (r : LayerRec) (t : KTensor) :
    shapeOf (.node r t) = shapeOf t >>= apply_layer_shape r := rfl

theorem shapeOf_merge (r : LayerRec) (ts : List KTensor) :
    shapeOf (.merge r ts) = shapesOf ts >>= merge_shape r := rfl

theorem shapesOf_nil : shapesOf [] = some [] := rfl

theorem shapesOf_cons (t : KTensor) (ts : List KTensor) :
    shapesOf (t :: ts) =
      shapeOf t >>= fun s => shapesOf ts >>= fun ss => pure (s :: ss) := rfl

theorem custom_conv3d_eq (e : Encoder) (st : BuildSt) (f : Nat) (s : Dim3) (nm : String) :
    e.custom_conv3d st f s nm =
      (st.1 ++ custom_conv3d_recs e f s nm, conv_block_tensor e f s nm st.2) := by
  obtain ⟨rs, t⟩ := st
  rcases e with ⟨fs, k, p, bn⟩
  cases bn <;>
    simp [Encoder.custom_conv3d, custom_conv3d_recs, conv_block_tensor, appLayer,
      List.append_assoc]

theorem custom_conv3dtranspose_eq (g : GaussianMixtureCAE) (st : BuildSt)
    (f : Nat) (s : Dim3) (nm : String) :
    g.custom_conv3dtranspose st f s nm =
      (st.1 ++ custom_conv3dT_recs g.toEncoder f s nm,
       convT_block_tensor g.toEncoder f s nm st.2) := by
  obtain ⟨rs, t⟩ := st
  rcases g with ⟨⟨fs, k, p, bn⟩, nk, m, is⟩
  cases bn <;>
    simp [GaussianMixtureCAE.custom_conv3dtranspose, custom_conv3dT_recs,
      convT_block_tensor, appLayer, List.append_assoc]

theorem build_encoder_from_eq (e : Encoder) :
    ∀ (fs : List Nat) (i : Nat) (st : BuildSt),
      e.build_encoder_from i fs st =
        (st.1 ++ encoder_recs_from e i fs, encoder_tensor_from e i fs st.2) := by
  intro fs
  induction fs with
  | nil =>
      intro i st
      simp [Encoder.build_encoder_from, encoder_recs_from, encoder_tensor_from]
  | cons f rest ih =>
      intro i st
      rw [Encoder.build_encoder_from, ih, custom_conv3d_eq, custom_conv3d_eq]
      simp [encoder_recs_from, encoder_tensor_from, List.append_assoc]

theorem build_decoder_from_eq (g : GaussianMixtureCAE) :
    ∀ (fs : List Nat) (i : Nat) (st : BuildSt),
      g.build_decoder_from i fs st =
        (st.1 ++ decoder_recs_from g.toEncoder i fs,
         decoder_tensor_from g.toEncoder i fs st.2) := by
  intro fs
  induction fs with
  | nil =>
      intro i st
      simp [GaussianMixtureCAE.build_decoder_from, decoder_recs_from, decoder_tensor_from]
  | cons f rest ih =>
      intro i st
      rw [GaussianMixtureCAE.build_decoder_from, ih, custom_conv3dtranspose_eq,
        custom_conv3dtranspose_eq]
      simp [decoder_recs_from, decoder_tensor_from, List.append_assoc]

theorem build_gmd_layers_eq (g : GaussianMixtureCAE) (rs : List LayerRec)
    (encoded decoded : KTensor) :
    g.build_gmd_layers rs encoded decoded = (rs ++ gmd_recs g, gmd_tensor g encoded decoded) := by
  simp [GaussianMixtureCAE.build_gmd_layers, appLayer, gmd_recs, gmd_tensor,
    log_prior_tensor, mu_tensor, sigma_sq_tensor]

theorem gmcae_build_layers_eq (g : GaussianMixtureCAE) (z y x : Nat)
    (h : g.input_shape = (z, y, x)) :
    g.build_layers =
      ⟨.inputL [some z, some y, some x, some 1] ::
         (encoder_recs g.toEncoder ++ (decoder_recs g.toEncoder ++ gmd_recs g)),
       .input [some z, some y, some x, some 1],
       gmd_tensor g
         (encoder_tensor_from g.toEncoder 0 g.nb_filters_per_layer
           (.input [some z, some y, some x, some 1]))
         (decoder_tensor_from g.toEncoder 0 g.nb_filters_per_layer.reverse
           (encoder_tensor_from g.toEncoder 0 g.nb_filters_per_layer
             (.input [some z, some y, some x, some 1])))⟩ := by
  unfold GaussianMixtureCAE.build_layers
  rw [h]
  simp [Encoder.build_encoder_layers, GaussianMixtureCAE.build_decoder_layers,
    build_encoder_from_eq, build_decoder_from_eq, build_gmd_layers_eq,
    encoder_recs, decoder_recs, List.append_assoc]

theorem dense_stack_eq (l : LungNet) :
    ∀ (ns : List Nat) (st : BuildSt),
      l.dense_stack ns st = (st.1 ++ dense_stack_recs l ns, dense_stack_tensor l ns st.2) := by
  intro ns
  induction ns with
  | nil =>
      intro st
      simp [LungNet.dense_stack, dense_stack_recs, dense_stack_tensor]
  | cons n rest ih =>
      intro st
      rw [LungNet.dense_stack]
      by_cases hd : l.dropout_rate ≠ 0 <;>
        simp [hd, ih, appLayer, dense_stack_recs, dense_stack_tensor, List.append_assoc]

theorem build_classifier_layers_eq (l : LungNet) (st : BuildSt) :
    l.build_classifier_layers st =
      (st.1 ++ ([.spp3d l.spp_nb_bins_per_level (some "spp3d")]
          ++ dense_stack_recs l l.n_dense ++ [.dense 1 (some .sigmoid) none]),
       .node (.dense 1 (some .sigmoid) none)
         (dense_stack_tensor l l.n_dense
           (.node (.spp3d l.spp_nb_bins_per_level (some "spp3d")) st.2))) := by
  rw [LungNet.build_classifier_layers]
  rw [show appLayer (.spp3d l.spp_nb_bins_per_level (some "spp3d")) st
        = (st.1 ++ [.spp3d l.spp_nb_bins_per_level (some "spp3d")],
           .node (.spp3d l.spp_nb_bins_per_level (some "spp3d")) st.2) from rfl]
  rw [dense_stack_eq]
  simp [appLayer, List.append_assoc]

theorem lungnet_build_from_eq (l : LungNet) (s : Shape) :
    l.build_from s =
      ⟨.inputL s ::
         (encoder_recs l.toEncoder ++
           ([.spp3d l.spp_nb_bins_per_level (some "spp3d")]
             ++ dense_stack_recs l l.n_dense ++ [.dense 1 (some .sigmoid) none])),
       .input s,
       .node (.dense 1 (some .sigmoid) none)
         (dense_stack_tensor l l.n_dense
           (.node (.spp3d l.spp_nb_bins_per_level (some "spp3d"))
             (encoder_tensor_from l.toEncoder 0 l.nb_filters_per_layer (.input s))))⟩ := by
  unfold LungNet.build_from
  simp [Encoder.build_encoder_layers, build_encoder_from_eq, build_classifier_layers_eq,
    encoder_recs, List.append_assoc]

theorem conv_cfgs_append (a b : List LayerRec) :
    conv_cfgs (a ++ b) = conv_cfgs a ++ conv_cfgs b :=
  List.filterMap_append a b _

theorem convT_cfgs_append (a b : List LayerRec) :
    convT_cfgs (a ++ b) = convT_cfgs a ++ convT_cfgs b :=
  List.filterMap_append a b _

theorem conv_cfgs_custom_conv3d_recs (e : Encoder) (f : Nat) (s : Dim3) (nm : String) :
    conv_cfgs (custom_conv3d_recs e f s nm) = [⟨f, e.kernel_size, s, e.padding⟩] := by
  rcases e with ⟨fs, k, p, bn⟩
  cases bn <;> simp [custom_conv3d_recs, conv_cfgs]

theorem convT_cfgs_custom_conv3dT_recs (e : Encoder) (f : Nat) (s : Dim3) (nm : String) :
    convT_cfgs (custom_conv3dT_recs e f s nm) = [⟨f, e.kernel_size, s, e.padding⟩] := by
  rcases e with ⟨fs, k, p, bn⟩
  cases bn <;> simp [custom_conv3dT_recs, convT_cfgs]

theorem conv_cfgs_encoder_recs_from (e : Encoder) :
    ∀ (fs : List Nat) (i : Nat),
      conv_cfgs (encoder_recs_from e i fs) =
        fs.flatMap (fun f => [⟨f, e.kernel_size, (1, 1, 1), e.padding⟩,
                           ⟨f, e.kernel_size, (2, 2, 2), e.padding⟩]) := by
  intro fs
  induction fs with
  | nil => intro i; simp [encoder_recs_from, conv_cfgs]
  | cons f rest ih =>
      intro i
      simp [encoder_recs_from, conv_cfgs_append, conv_cfgs_custom_conv3d_recs, ih]

theorem convT_cfgs_decoder_recs_from (e : Encoder) :
    ∀ (fs : List Nat) (i : Nat),
      convT_cfgs (decoder_recs_from e i fs) =
        fs.flatMap (fun f => [⟨f, e.kernel_size, (2, 2, 2), e.padding⟩,
                           ⟨f, e.kernel_size, (1, 1, 1), e.padding⟩]) := by
  intro fs
  induction fs with
  | nil => intro i; simp [decoder_recs_from, convT_cfgs]
  | cons f rest ih =>
      intro i
      simp [decoder_recs_from, convT_cfgs_append, convT_cfgs_custom_conv3dT_recs, ih]

theorem length_bind_pair {α β : Type} (fs : List α) (f g : α → β) :
    (fs.flatMap (fun v => [f v, g v])).length = 2 * fs.length := by
  induction fs with
  | nil => simp
  | cons a rest ih => simp [ih]; omega

theorem length_filter_bind_pair {α β : Type} (fs : List α) (f g : α → β)
    (P : β → Bool) (hf : ∀ v, P (f v) = false) (hg : ∀ v, P (g v) = true) :
    ((fs.flatMap (fun v => [f v, g v])).filter P).length = fs.length := by
  induction fs with
  | nil => simp
  | cons a rest ih => simp [hf, hg, ih]

theorem length_filter_bind_pair' {α β : Type} (fs : List α) (f g : α → β)
    (P : β → Bool) (hf : ∀ v, P (f v) = true) (hg : ∀ v, P (g v) = false) :
    ((fs.flatMap (fun v => [f v, g v])).filter P).length = fs.length := by
  induction fs with
  | nil => simp
  | cons a rest ih => simp [hf, hg, ih]

theorem map_bind_pair {α β γ : Type} (fs : List α) (f g : α → β) (h : β → γ) :
    (fs.flatMap (fun v => [f v, g v])).map h = fs.flatMap (fun v => [h (f v), h (g v)]) := by
  induction fs with
  | nil => simp
  | cons a rest ih => simp [ih]

theorem conv_block_tensor_shape_one (e : Encoder) (hp : e.padding = .same)
    (f : Nat) (nm : String) (t : KTensor) (a b c : Nat) (ch : Option Nat)
    (ht : shapeOf t = some [some a, some b, some c, ch]) :
    shapeOf (conv_block_tensor e f (1, 1, 1) nm t) =
      some [some a, some b, some c, some f] := by
  rcases e with ⟨fs, ⟨k1, k2, k3⟩, p, bn⟩
  obtain rfl : p = .same := hp
  cases bn <;>
    simp [conv_block_tensor, shapeOf_node, ht, apply_layer_shape, conv_out_dim]

theorem conv_block_tensor_shape_two (e : Encoder) (hp : e.padding = .same)
    (f : Nat) (nm : String) (t : KTensor) (a b c : Nat) (ch : Option Nat)
    (ht : shapeOf t = some [some a, some b, some c, ch]) :
    shapeOf (conv_block_tensor e f (2, 2, 2) nm t) =
      some [some (ceil_half a), some (ceil_half b), some (ceil_half c), some f] := by
  rcases e with ⟨fs, ⟨k1, k2, k3⟩, p, bn⟩
  obtain rfl : p = .same := hp
  cases bn <;>
    simp [conv_block_tensor, shapeOf_node, ht, apply_layer_shape, conv_out_dim, ceil_half]

theorem conv_block_tensor_shape_none (e : Encoder) (f : Nat) (s : Dim3) (nm : String)
    (t : KTensor) (ch : Option Nat)
    (ht : shapeOf t = some [none, none, none, ch]) :
    shapeOf (conv_block_tensor e f s nm t) = some [none, none, none, some f] := by
  rcases e with ⟨fs, ⟨k1, k2, k3⟩, p, bn⟩
  obtain ⟨s1, s2, s3⟩ := s
  cases bn <;>
    simp [conv_block_tensor, shapeOf_node, ht, apply_layer_shape, conv_out_dim]

theorem convT_block_tensor_shape_one (e : Encoder) (hp : e.padding = .same)
    (f : Nat) (nm : String) (t : KTensor) (a b c : Nat) (ch : Option Nat)
    (ht : shapeOf t = some [some a, some b, some c, ch]) :
    shapeOf (convT_block_tensor e f (1, 1, 1) nm t) =
      some [some a, some b, some c, some f] := by
  rcases e with ⟨fs, ⟨k1, k2, k3⟩, p, bn⟩
  obtain rfl : p = .same := hp
  cases bn <;>
    simp [convT_block_tensor, shapeOf_node, ht, apply_layer_shape, convT_out_dim]

theorem convT_block_tensor_shape_two (e : Encoder) (hp : e.padding = .same)
    (f : Nat) (nm : String) (t : KTensor) (a b c : Nat) (ch : Option Nat)
    (ht : shapeOf t = some [some a, some b, some c, ch]) :
    shapeOf (convT_block_tensor e f (2, 2, 2) nm t) =
      some [some (a * 2), some (b * 2), some (c * 2), some f] := by
  rcases e with ⟨fs, ⟨k1, k2, k3⟩, p, bn⟩
  obtain rfl : p = .same := hp
  cases bn <;>
    simp [convT_block_tensor, shapeOf_node, ht, apply_layer_shape, convT_out_dim]

theorem encoder_tensor_from_shape (e : Encoder) (hp : e.padding = .same) :
    ∀ (fs : List Nat) (i : Nat) (t : KTensor) (a b c ch : Nat),
      shapeOf t = some [some a, some b, some c, some ch] →
      shapeOf (encoder_tensor_from e i fs t) =
        some [some (ceil_half^[fs.length] a), some (ceil_half^[fs.length] b),
              some (ceil_half^[fs.length] c), some (fs.foldl (fun _ f => f) ch)] := by
  intro fs
  induction fs with
  | nil =>
      intro i t a b c ch ht
      simpa [encoder_tensor_from] using ht
  | cons f rest ih =>
      intro i t a b c ch ht
      rw [encoder_tensor_from]
      have h1 := conv_block_tensor_shape_one e hp f ("1-2_" ++ toString i) t a b c
        (some ch) ht
      have h2 := conv_block_tensor_shape_two e hp f ("2-1_" ++ toString i) _ a b c
        (some f) h1
      rw [ih (i + 1) _ (ceil_half a) (ceil_half b) (ceil_half c) f h2]
      simp [Function.iterate_succ_apply]

theorem encoder_tensor_from_shape_none (e : Encoder) :
    ∀ (fs : List Nat) (i : Nat) (t : KTensor) (ch : Nat),
      shapeOf t = some [none, none, none, some ch] →
      shapeOf (encoder_tensor_from e i fs t) =
        some [none, none, none, some (fs.foldl (fun _ f => f) ch)] := by
  intro fs
  induction fs with
  | nil =>
      intro i t ch ht
      simpa [encoder_tensor_from] using ht
  | cons f rest ih =>
      intro i t ch ht
      rw [encoder_tensor_from]
      have h1 := conv_block_tensor_shape_none e f (1, 1, 1) ("1-2_" ++ toString i) t
        (some ch) ht
      have h2 := conv_block_tensor_shape_none e f (2, 2, 2) ("2-1_" ++ toString i) _
        (some f) h1
      rw [ih (i + 1) _ f h2]
      simp

theorem decoder_tensor_from_shape (e : Encoder) (hp : e.padding = .same) :
    ∀ (fs : List Nat) (i : Nat) (t : KTensor) (a b c ch : Nat),
      shapeOf t = some [some a, some b, some c, some ch] →
      shapeOf (decoder_tensor_from e i fs t) =
        some [some (a * 2 ^ fs.length), some (b * 2 ^ fs.length),
              some (c * 2 ^ fs.length), some (fs.foldl (fun _ f => f) ch)] := by
  intro fs
  induction fs with
  | nil =>
      intro i t a b c ch ht
      simpa [decoder_tensor_from] using ht
  | cons f rest ih =>
      intro i t a b c ch ht
      rw [decoder_tensor_from]
      have h1 := convT_block_tensor_shape_two e hp f ("2-1_" ++ toString i) t a b c
        (some ch) ht
      have h2 := convT_block_tensor_shape_one e hp f ("1-2_" ++ toString i) _
        (a * 2) (b * 2) (c * 2) (some f) h1
      rw [ih (i + 1) _ (a * 2) (b * 2) (c * 2) f h2]
      have harr : ∀ d : Nat, d * 2 * 2 ^ rest.length = d * 2 ^ (rest.length + 1) := by
        intro d
        ring
      simp [harr]

theorem ceil_half_iterate_of_dvd :
    ∀ (n d : Nat), 2 ^ n ∣ d → ceil_half^[n] d * 2 ^ n = d := by
  intro n
  induction n with
  | zero => intro d h; simp
  | succ n ih =>
      intro d h
      have h2 : 2 ∣ d := dvd_trans ⟨2 ^ n, by ring⟩ h
      obtain ⟨k, rfl⟩ := h2
      have hch : ceil_half (2 * k) = k := by
        unfold ceil_half
        omega
      rw [Function.iterate_succ_apply, hch]
      have hk : 2 ^ n ∣ k := by
        rcases h with ⟨q, hq⟩
        refine ⟨q, ?_⟩
        have hq2 : 2 * k = 2 * (2 ^ n * q) := by
          rw [hq]
          ring
        omega
      rw [pow_succ, ← mul_assoc, ih k hk]
      ring

theorem log_prior_tensor_shape (g : GaussianMixtureCAE) (enc : KTensor)
    (ez ey ex : Nat) (ch : Option Nat)
    (h : shapeOf enc = some [some ez, some ey, some ex, ch]) :
    shapeOf (log_prior_tensor g enc) = some [some g.n_gaussians] := by
  rcases hk : g.kernel_size with ⟨k1, k2, k3⟩
  simp [log_prior_tensor, shapeOf_node, h, apply_layer_shape, hk, conv_out_dim, shape_prod]

theorem sigma_sq_tensor_shape (g : GaussianMixtureCAE) (enc : KTensor)
    (ez ey ex : Nat) (ch : Option Nat)
    (h : shapeOf enc = some [some ez, some ey, some ex, ch]) :
    shapeOf (sigma_sq_tensor g enc) = some [some g.n_gaussians] := by
  rcases hk : g.kernel_size with ⟨k1, k2, k3⟩
  simp [sigma_sq_tensor, shapeOf_node, h, apply_layer_shape, hk, conv_out_dim, shape_prod]

theorem mu_tensor_shape (g : GaussianMixtureCAE) (dec : KTensor)
    (dz dy dx : Nat) (ch : Option Nat)
    (h : shapeOf dec = some [some dz, some dy, some dx, ch]) :
    shapeOf (mu_tensor g dec) = some [some (dz * dy * dx * g.n_gaussians)] := by
  rcases hk : g.kernel_size with ⟨k1, k2, k3⟩
  simp [mu_tensor, shapeOf_node, h, apply_layer_shape, hk, conv_out_dim, shape_prod,
    mul_assoc]

theorem gmd_tensor_shape (g : GaussianMixtureCAE) (enc dec : KTensor)
    (wlp wss wmu : Nat)
    (h1 : shapeOf (log_prior_tensor g enc) = some [some wlp])
    (h2 : shapeOf (sigma_sq_tensor g enc) = some [some wss])
    (h3 : shapeOf (mu_tensor g dec) = some [some wmu]) :
    shapeOf (gmd_tensor g enc dec) = some [some (wlp + (wss + wmu))] := by
  rw [gmd_tensor, shapeOf_merge, shapesOf_cons, shapesOf_cons, shapesOf_cons,
    shapesOf_nil, h1, h2, h3]
  simp [merge_shape, concat_shapes, allSome]

/-- C7: the encoder has exactly `2*n` `Conv3D` layers (`n` the length of
`nb_filters_per_layer`), one per block with strides `(2, 2, 2)`, each filter
count used twice; the decoder has one stride-`(2, 2, 2)` `Conv3DTranspose`
per block and applies the filter counts in reverse order; with `same` padding
and all of `z, y, x` divisible by `2^n` the decoder output has exactly the
input's spatial shape, matching the `c = z*y*x` dimensions assumed by the
loss `build_gmd_log_likelihood(z*y*x, m)`. -/
theorem encoder_decoder_structure (e : Encoder) (nm : NakedModel) (m z y x : Nat) :
    (conv_cfgs (encoder_recs e)).length = 2 * e.nb_filters_per_layer.length ∧
    ((conv_cfgs (encoder_recs e)).filter
        (fun c => decide (c.strides = (2, 2, 2)))).length
      = e.nb_filters_per_layer.length ∧
    (conv_cfgs (encoder_recs e)).map ConvCfg.filters
      = e.nb_filters_per_layer.flatMap (fun f => [f, f]) ∧
    (convT_cfgs (decoder_recs e)).map ConvCfg.filters
      = e.nb_filters_per_layer.reverse.flatMap (fun f => [f, f]) ∧
    ((convT_cfgs (decoder_recs e)).filter
        (fun c => decide (c.strides = (2, 2, 2)))).length
      = e.nb_filters_per_layer.length ∧
    (e.padding = .same →
      2 ^ e.nb_filters_per_layer.length ∣ z →
      2 ^ e.nb_filters_per_layer.length ∣ y →
      2 ^ e.nb_filters_per_layer.length ∣ x →
      ∃ ch : Nat,
        shapeOf (((GaussianMixtureCAE.mk e nm m (z, y, x)).build_decoder_layers
            ((GaussianMixtureCAE.mk e nm m (z, y, x)).toEncoder.build_encoder_layers
              ([.inputL [some z, some y, some x, some 1]],
               .input [some z, some y, some x, some 1]))).2)
          = some [some z, some y, some x, some ch]) ∧
    (GaussianMixtureCAE.mk e nm m (z, y, x)).loss = Loss.gmdLogLikelihood (z * y * x) m := by
  refine ⟨?_, ?_, ?_, ?_, ?_, ?_, rfl⟩
  · rw [encoder_recs, conv_cfgs_encoder_recs_from]
    exact length_bind_pair _ _ _
  · rw [encoder_recs, conv_cfgs_encoder_recs_from]
    apply length_filter_bind_pair
    · intro v
      rfl
    · intro v
      rfl
  · rw [encoder_recs, conv_cfgs_encoder_recs_from, map_bind_pair]
  · rw [decoder_recs, convT_cfgs_decoder_recs_from, map_bind_pair]
  · rw [decoder_recs, convT_cfgs_decoder_recs_from]
    rw [show e.nb_filters_per_layer.length = e.nb_filters_per_layer.reverse.length
        from (List.length_reverse _).symm]
    apply length_filter_bind_pair'
    · intro v
      rfl
    · intro v
      rfl
  · intro hp hz hy hx
    rw [GaussianMixtureCAE.build_decoder_layers, Encoder.build_encoder_layers,
      build_encoder_from_eq, build_decoder_from_eq]
    have henc := encoder_tensor_from_shape e hp e.nb_filters_per_layer 0
      (.input [some z, some y, some x, some 1]) z y x 1 (shapeOf_input _)
    have hdec := decoder_tensor_from_shape e hp e.nb_filters_per_layer.reverse 0 _
      (ceil_half^[e.nb_filters_per_layer.length] z)
      (ceil_half^[e.nb_filters_per_layer.length] y)
      (ceil_half^[e.nb_filters_per_layer.length] x)
      (e.nb_filters_per_layer.foldl (fun _ f => f) 1) henc
    refine ⟨e.nb_filters_per_layer.reverse.foldl (fun _ f => f)
      (e.nb_filters_per_layer.foldl (fun _ f => f) 1), ?_⟩
    show shapeOf (decoder_tensor_from e 0 e.nb_filters_per_layer.reverse
        (encoder_tensor_from e 0 e.nb_filters_per_layer
          (.input [some z, some y, some x, some 1]))) = _
    rw [hdec]
    rw [List.length_reverse]
    rw [ceil_half_iterate_of_dvd _ _ hz, ceil_half_iterate_of_dvd _ _ hy,
      ceil_half_iterate_of_dvd _ _ hx]

/-- Witness for C7 at the small model: one block of 4 filters, input shape
`(2, 2, 2)`, `same` padding, `2 ^ 1` divides every spatial dimension, and the
decoder output recovers the spatial shape `(2, 2, 2)`. -/
theorem encoder_decoder_structure_witness :
    ∃ ch : Nat,
      shapeOf ((gmcae_small.build_decoder_layers
          (gmcae_small.toEncoder.build_encoder_layers
            ([.inputL [some 2, some 2, some 2, some 1]],
             .input [some 2, some 2, some 2, some 1]))).2)
        = some [some 2, some 2, some 2, some ch] :=
  (encoder_decoder_structure gmcae_small.toEncoder gmcae_small.toNakedModel
    2 2 2 2).2.2.2.2.2.1 rfl (by decide) (by decide) (by decide)

/-- C1 counterexample: as universally stated the claim fails. With the
constructor defaults (`nb_filters_per_layer=(64, 128, 256)`, `padding='same'`),
one Gaussian and input shape `(1, 1, 1)`, the decoder output has spatial
shape `(8, 8, 8)` (each dimension is `2^3 * ceil-halved-thrice`), so the GMD
output has width `2*1 + 8*8*8*1 = 514`, not `2*1 + 1*1*1*1 = 3`. -/
theorem gmd_output_width_cex :
    shapeOf gmcae_default_111.build_layers.output ≠ some [some (2 * 1 + 1 * 1 * 1 * 1)] := by
  decide

/-- C1 (amended): for every number of Gaussians `m`, filter list and kernel
size, with `padding='same'` and every spatial input dimension divisible by
`2^n` (`n` the number of encoder blocks), the built network's output layer is
the concatenation, in this order, of `m` log-priors (through `log_softmax`),
`m` variances (through `ShiftedELU`), and `z*y*x*m` means, so the output
vector has width `2*m + z*y*x*m`. -/
theorem gmd_output_width (e : Encoder) (nm : NakedModel) (m z y x : Nat)
    (hp : e.padding = .same)
    (hz : 2 ^ e.nb_filters_per_layer.length ∣ z)
    (hy : 2 ^ e.nb_filters_per_layer.length ∣ y)
    (hx : 2 ^ e.nb_filters_per_layer.length ∣ x) :
    ∃ lp ss mu,
      (GaussianMixtureCAE.mk e nm m (z, y, x)).build_layers.output =
        .merge (.concat (some "gmd")) [lp, ss, mu] ∧
      (∃ t, lp = .node (.dense m (some .logSoftmax) (some "log_prior")) t) ∧
      (∃ t, ss = .node (.shiftedELU 1 1 (some "sigma_sq")) t) ∧
      (∃ t, mu = .node (.flatten (some "mu")) t) ∧
      shapeOf lp = some [some m] ∧
      shapeOf ss = some [some m] ∧
      shapeOf mu = some [some (z * y * x * m)] ∧
      shapeOf (GaussianMixtureCAE.mk e nm m (z, y, x)).build_layers.output =
        some [some (2 * m + z * y * x * m)] := by
  rw [gmcae_build_layers_eq _ z y x rfl]
  have henc := encoder_tensor_from_shape e hp e.nb_filters_per_layer 0
    (.input [some z, some y, some x, some 1]) z y x 1 (shapeOf_input _)
  have hdec := decoder_tensor_from_shape e hp e.nb_filters_per_layer.reverse 0 _
    (ceil_half^[e.nb_filters_per_layer.length] z)
    (ceil_half^[e.nb_filters_per_layer.length] y)
    (ceil_half^[e.nb_filters_per_layer.length] x)
    (e.nb_filters_per_layer.foldl (fun _ f => f) 1) henc
  rw [List.length_reverse, ceil_half_iterate_of_dvd _ _ hz,
    ceil_half_iterate_of_dvd _ _ hy, ceil_half_iterate_of_dvd _ _ hx] at hdec
  set g := GaussianMixtureCAE.mk e nm m (z, y, x) with hg
  have hlp := log_prior_tensor_shape g _ _ _ _ _ henc
  have hss := sigma_sq_tensor_shape g _ _ _ _ _ henc
  have hmu := mu_tensor_shape g _ _ _ _ _ hdec
  have hout := gmd_tensor_shape g _ _ _ _ _ hlp hss hmu
  refine ⟨_, _, _, rfl, ⟨_, rfl⟩, ⟨_, rfl⟩, ⟨_, rfl⟩, hlp, hss, ?_, ?_⟩
  · rw [hmu]
  · rw [hout]
    have harith : g.n_gaussians + (g.n_gaussians + z * y * x * g.n_gaussians)
        = 2 * g.n_gaussians + z * y * x * g.n_gaussians := by
      ring
    rw [harith]

/-- Witness for C1 (amended) at the small model: one block of 4 filters,
input shape `(2, 2, 2)` with every dimension divisible by `2^1`, two
Gaussians; the output width is `2*2 + 2*2*2*2 = 20`. -/
theorem gmd_output_width_witness :
    ∃ lp ss mu,
      gmcae_small.build_layers.output = .merge (.concat (some "gmd")) [lp, ss, mu] ∧
      (∃ t, lp = .node (.dense 2 (some .logSoftmax) (some "log_prior")) t) ∧
      (∃ t, ss = .node (.shiftedELU 1 1 (some "sigma_sq")) t) ∧
      (∃ t, mu = .node (.flatten (some "mu")) t) ∧
      shapeOf lp = some [some 2] ∧
      shapeOf ss = some [some 2] ∧
      shapeOf mu = some [some (2 * 2 * 2 * 2)] ∧
      shapeOf gmcae_small.build_layers.output = some [some (2 * 2 + 2 * 2 * 2 * 2)] :=
  gmd_output_width gmcae_small.toEncoder gmcae_small.toNakedModel 2 2 2 2
    rfl (by decide) (by decide) (by decide)

/-- C4: with equal `nb_filters_per_layer`, `kernel_size`, `padding` and
`batch_normalization`, the layer stacks built by `GaussianMixtureCAE` and
`LungNet` start (after the input layer) with exactly the same encoder layer
sequence, with identical layer records (type, names, filter counts, kernel
sizes, strides, padding), so weights saved by one load into the other via
`load_weights_from_file`, whose `load_weights` call passes `by_name=True`. -/
theorem encoder_stack_shared (e : Encoder) (nm : NakedModel) (m : Nat) (zyx : Dim3)
    (spp nd : List Nat) (dr : ℚ) (opt mp wf : String) (esp : Nat) :
    ((GaussianMixtureCAE.mk e nm m zyx).build_layers.recs.drop 1).take
        (encoder_recs e).length = encoder_recs e ∧
    ((LungNet.mk e spp nd dr opt esp mp wf).build_layers.recs.drop 1).take
        (encoder_recs e).length = encoder_recs e ∧
    load_weights_by_name = true := by
  obtain ⟨z, y, x⟩ := zyx
  refine ⟨?_, ?_, rfl⟩
  · rw [gmcae_build_layers_eq _ z y x rfl]
    exact List.take_left _ _
  · rw [show (LungNet.mk e spp nd dr opt esp mp wf).build_layers
        = (LungNet.mk e spp nd dr opt esp mp wf).build_from [none, none, none, some 1]
        from rfl]
    rw [lungnet_build_from_eq]
    exact List.take_left _ _

theorem dense_stack_tensor_shape (l : LungNet) :
    ∀ (ns : List Nat) (t : KTensor) (w : Nat),
      shapeOf t = some [some w] →
      ∃ w2, shapeOf (dense_stack_tensor l ns t) = some [some w2] := by
  intro ns
  induction ns with
  | nil =>
      intro t w h
      exact ⟨w, by simpa [dense_stack_tensor] using h⟩
  | cons n rest ih =>
      intro t w h
      rw [dense_stack_tensor]
      by_cases hd : l.dropout_rate ≠ 0
      · refine ih _ n ?_
        simp [hd, shapeOf_node, h, apply_layer_shape]
      · refine ih _ n ?_
        simp [hd, shapeOf_node, h, apply_layer_shape]

/-- C3: the input layer of `LungNet` constrains only the channel dimension
(shape `(None, None, None, 1)`); the network's shape inference succeeds with
those unknown spatial dimensions and yields a width-1 output; the
`SpatialPyramidPooling3D` layer maps an encoder output of any spatial size to
a fixed-length vector whose length does not depend on the spatial size; and
(with the default `same` padding) the full network applied to an input of any
concrete spatial size again produces the width-1 output of the unchanged
dense classifier stack. -/
theorem lungnet_variable_size (l : LungNet) :
    l.build_layers.input = KTensor.input [none, none, none, some 1] ∧
    shapeOf l.build_layers.output = some [some 1] ∧
    (∀ (bins : List Nat) (nm : Option String) (z y x c : Nat),
      apply_layer_shape (.spp3d bins nm) [some z, some y, some x, some c]
        = some [some (c * spp_total_bins bins)]) ∧
    (l.padding = Padding.same → ∀ z y x : Nat,
      shapeOf (l.build_from [some z, some y, some x, some 1]).output = some [some 1]) := by
  refine ⟨?_, ?_, ?_, ?_⟩
  · rw [show l.build_layers = l.build_from [none, none, none, some 1] from rfl,
      lungnet_build_from_eq]
  · rw [show l.build_layers = l.build_from [none, none, none, some 1] from rfl,
      lungnet_build_from_eq]
    have henc := encoder_tensor_from_shape_none l.toEncoder l.nb_filters_per_layer 0
      (.input [none, none, none, some 1]) 1 (shapeOf_input _)
    have hspp : shapeOf (KTensor.node (.spp3d l.spp_nb_bins_per_level (some "spp3d"))
        (encoder_tensor_from l.toEncoder 0 l.nb_filters_per_layer
          (.input [none, none, none, some 1])))
        = some [some ((l.nb_filters_per_layer.foldl (fun _ f => f) 1)
            * spp_total_bins l.spp_nb_bins_per_level)] := by
      simp [shapeOf_node, henc, apply_layer_shape]
    obtain ⟨w2, hw2⟩ := dense_stack_tensor_shape l l.n_dense _ _ hspp
    simp [shapeOf_node, hw2, apply_layer_shape]
  · intro bins nm z y x c
    rfl
  · intro hp z y x
    rw [lungnet_build_from_eq]
    have henc := encoder_tensor_from_shape l.toEncoder hp l.nb_filters_per_layer 0
      (.input [some z, some y, some x, some 1]) z y x 1 (shapeOf_input _)
    have hspp : shapeOf (KTensor.node (.spp3d l.spp_nb_bins_per_level (some "spp3d"))
        (encoder_tensor_from l.toEncoder 0 l.nb_filters_per_layer
          (.input [some z, some y, some x, some 1])))
        = some [some ((l.nb_filters_per_layer.foldl (fun _ f => f) 1)
            * spp_total_bins l.spp_nb_bins_per_level)] := by
      simp [shapeOf_node, henc, apply_layer_shape]
    obtain ⟨w2, hw2⟩ := dense_stack_tensor_shape l l.n_dense _ _ hspp
    simp [shapeOf_node, hw2, apply_layer_shape]

/-- Witness for C3: the small `LungNet` (built with `same` padding) accepts
the spatial size `(3, 5, 7)` and still produces the width-1 output. -/
theorem lungnet_variable_size_witness :
    shapeOf (lungnet_small.build_from [some 3, some 5, some 7, some 1]).output
      = some [some 1] :=
  (lungnet_variable_size lungnet_small).2.2.2 rfl 3 5 7

/-- C9: every `fit_generator` run first creates the `model_path` directory
and then trains with exactly six callbacks in this order: a `ModelCheckpoint`
that saves weights only and only on `val_loss` improvement, an
`EarlyStopping` on `val_loss` with the constructed patience and `min_delta`
0, a `CSVLogger` writing `epoch_log.csv`, a `BatchLossCSVLogger` writing
`batch_log.csv`, a `TensorBoard` logger under `model_path/tensorboard`, and a
`TerminateOnNaN`. -/
theorem fit_generator_callbacks (nm : NakedModel) :
    nm.fit_generator =
      [.makedir nm.model_path,
       .fit [.modelCheckpoint (path_join nm.model_path nm.weights_name_format)
               "val_loss" true true,
             .earlyStopping "val_loss" 0 nm.es_patience,
             .csvLogger (path_join nm.model_path "epoch_log.csv"),
             .batchLossCSVLogger (path_join nm.model_path "batch_log.csv"),
             .tensorBoard (path_join nm.model_path "tensorboard") nm.histogram_freq
               (decide (0 < nm.histogram_freq)),
             .terminateOnNaN]] := rfl

/-- C2: a `GaussianMixtureCAE` constructed with input shape `(z, y, x)` and
`m` Gaussians is compiled with the loss `build_gmd_log_likelihood(c, m)`
where `c = z * y * x`, and with the optimizer given at construction. -/
theorem gmcae_compiled_with_gmd_loss (e : Encoder) (nm : NakedModel) (m z y x : Nat) :
    (GaussianMixtureCAE.mk e nm m (z, y, x)).loss = Loss.gmdLogLikelihood (z * y * x) m ∧
    ∃ M : BuiltModel,
      (GaussianMixtureCAE.mk e nm m (z, y, x)).build_model none = Except.ok M ∧
      M.lossFn = Loss.gmdLogLikelihood (z * y * x) m ∧
      M.optimizer = nm.optimizer ∧ M.compiled = true := by
  exact ⟨rfl, _, rfl, rfl, rfl, rfl⟩

/-- C8: the GMD head applies `ShiftedELU(shift=1.0, alpha=1.0)` to the
variance outputs and `log_softmax` to the log-prior outputs, and the modelled
shifted ELU with these parameters is strictly positive everywhere (its ELU
part exceeds -1). -/
theorem gmd_custom_activations (e : Encoder) (nm : NakedModel) (m z y x : Nat) :
    (∃ t1 t2 t3,
      (GaussianMixtureCAE.mk e nm m (z, y, x)).build_layers.output =
        .merge (.concat (some "gmd"))
          [.node (.dense m (some .logSoftmax) (some "log_prior")) t1,
           .node (.shiftedELU 1 1 (some "sigma_sq")) t2,
           .node (.flatten (some "mu")) t3]) ∧
    (∀ v : ℝ, -1 < elu 1 v ∧ 0 < shifted_elu 1 1 v) := by
  constructor
  · rw [gmcae_build_layers_eq _ z y x rfl]
    exact ⟨_, _, _, rfl⟩
  · intro v
    unfold shifted_elu elu
    split
    · constructor <;> linarith
    · have h := Real.exp_pos v
      constructor <;> linarith

/-- C5: evaluated at the failing input, the embedded `GaussianMixtureCAE.predict`
does not return an array of the input's shape: for the small model (2
Gaussians, input shape `(2, 2, 2)`, one encoder block) and the valid float32
input of shape `(3, 2, 2, 2, 1)`, the advanced indexing
`mu[sample, z, y, x, which]` broadcasts the index arrays of shapes
`(3, 2, 2, 2)` and `(3,)`, which fail to broadcast, so numpy raises an
`IndexError`; for a single-sample input of shape `(1, 2, 2, 2, 1)` the
result does have the input's shape. -/
theorem gmcae_predict_shape_mismatch :
    gmcae_small.predict ⟨"float32", [3, 2, 2, 2, 1]⟩ =
      Except.error "shape mismatch: indexing arrays could not be broadcast together" ∧
    gmcae_small.predict ⟨"float32", [1, 2, 2, 2, 1]⟩ =
      Except.ok ⟨"float32", [1, 2, 2, 2, 1]⟩ :=
  ⟨rfl, rfl⟩

/-- C6: `_check_input_array` raises `ValueError` exactly when the dtype is
not float32, or the rank is not 5, or the last dimension is not 1; on any
such input both `GaussianMixtureCAE.predict` and `LungNet.predict` return
that error before invoking the underlying model (the embedded predictions
short-circuit on the check's error, so no prediction is computed). -/
theorem check_input_array_iff (g : GaussianMixtureCAE) (l : LungNet) (x : NpArray) :
    ((∃ msg, NakedModel.check_input_array x = Except.error msg) ↔
      (x.dtype ≠ "float32" ∨ x.shape.length ≠ 5 ∨ x.shape.getLast? ≠ some 1)) ∧
    (∀ msg, NakedModel.check_input_array x = Except.error msg →
      g.predict x = Except.error msg ∧ l.predict x = Except.error msg) := by
  constructor
  · constructor
    · rintro ⟨msg, h⟩
      by_contra hc
      push_neg at hc
      obtain ⟨h1, h2, h3⟩ := hc
      simp [NakedModel.check_input_array, h1, h2, h3] at h
    · intro h
      unfold NakedModel.check_input_array
      split_ifs with h1 h2 h3
      · exact ⟨_, rfl⟩
      · exact ⟨_, rfl⟩
      · exact ⟨_, rfl⟩
      · tauto
  · intro msg h
    constructor
    · unfold GaussianMixtureCAE.predict
      rw [h]
      rfl
    · unfold LungNet.predict
      rw [h]
      rfl

theorem frozen_in_nil (r : LayerRec) : frozen_in [] r = false := by
  unfold frozen_in
  cases layer_name r <;> simp

theorem frozen_in_cons (nm : String) (rest : List String) (r : LayerRec) :
    frozen_in (nm :: rest) r
      = (decide (layer_name r = some nm) || frozen_in rest r) := by
  unfold frozen_in
  cases h : layer_name r <;> simp [h, List.mem_cons]

theorem set_layer_untrainable_eq (nm : String) :
    ∀ (layers : List (LayerRec × Bool)),
      ((layers.map (fun l => l.1)).filterMap layer_name).Nodup →
      nm ∈ (layers.map (fun l => l.1)).filterMap layer_name →
      set_layer_untrainable layers nm =
        some (layers.map
          (fun l => if layer_name l.1 = some nm then (l.1, false) else l)) := by
  intro layers
  induction layers with
  | nil =>
      intro _ hmem
      simp at hmem
  | cons l rest ih =>
      intro hnd hmem
      by_cases hl : layer_name l.1 = some nm
      · have hnd2 : (nm :: (rest.map (fun v => v.1)).filterMap layer_name).Nodup := by
          simpa [List.filterMap_cons, hl] using hnd
        have hnotin : nm ∉ (rest.map (fun v => v.1)).filterMap layer_name :=
          (List.nodup_cons.mp hnd2).1
        have hrest : ∀ a ∈ rest, ¬ (layer_name a.1 = some nm) := by
          intro a ha hcontra
          exact hnotin (List.mem_filterMap.mpr
            ⟨a.1, List.mem_map.mpr ⟨a, ha, rfl⟩, hcontra⟩)
        have hmapid : rest.map
            (fun v => if layer_name v.1 = some nm then (v.1, false) else v) = rest := by
          rw [List.map_congr_left (fun a ha => if_neg (hrest a ha))]
          simp
        have hset : set_layer_untrainable (l :: rest) nm = some ((l.1, false) :: rest) := by
          simp [set_layer_untrainable, hl]
        rw [hset, List.map_cons, if_pos hl, hmapid]
      · have hname := hl
        simp only [set_layer_untrainable, List.map_cons]
        rw [if_neg hl]
        have hnd2 : ((rest.map (fun v => v.1)).filterMap layer_name).Nodup := by
          cases hn : layer_name l.1 with
          | none => simpa [List.filterMap_cons, hn] using hnd
          | some k =>
              have h2 : (k :: (rest.map (fun v => v.1)).filterMap layer_name).Nodup := by
                simpa [List.filterMap_cons, hn] using hnd
              exact (List.nodup_cons.mp h2).2
        have hmem2 : nm ∈ (rest.map (fun v => v.1)).filterMap layer_name := by
          cases hn : layer_name l.1 with
          | none => simpa [List.filterMap_cons, hn] using hmem
          | some k =>
              have h2 : nm = k ∨ nm ∈ (rest.map (fun v => v.1)).filterMap layer_name := by
                simpa [List.filterMap_cons, hn] using hmem
              rcases h2 with h2 | h2
              · exact absurd (by rw [hn, h2]) hname
              · exact h2
        rw [ih hnd2 hmem2]
        simp [if_neg hl]

theorem apply_freeze_some :
    ∀ (names : List String) (layers : List (LayerRec × Bool)),
      ((layers.map (fun l => l.1)).filterMap layer_name).Nodup →
      (∀ nm ∈ names, nm ∈ (layers.map (fun l => l.1)).filterMap layer_name) →
      apply_freeze layers (some names) =
        Except.ok (layers.map (fun l => (l.1, l.2 && !(frozen_in names l.1)))) := by
  intro names
  induction names with
  | nil =>
      intro layers hnd hmem
      simp only [apply_freeze, List.foldlM_nil]
      have hmap : layers.map (fun l => (l.1, l.2 && !(frozen_in [] l.1))) = layers := by
        rw [show (fun (l : LayerRec × Bool) => (l.1, l.2 && !(frozen_in [] l.1)))
            = fun l => l from funext (fun a => by simp [frozen_in_nil])]
        simp
      rw [hmap]
      rfl
  | cons nm rest ih =>
      intro layers hnd hmem
      have hset := set_layer_untrainable_eq nm layers hnd (hmem nm (by simp))
      have hstep : apply_freeze layers (some (nm :: rest)) =
          apply_freeze (layers.map
            (fun l => if layer_name l.1 = some nm then (l.1, false) else l))
            (some rest) := by
        simp only [apply_freeze, List.foldlM_cons]
        rw [hset]
        rfl
      rw [hstep]
      have hfst : (layers.map
            (fun l => if layer_name l.1 = some nm then (l.1, false) else l)).map
            (fun l => l.1) = layers.map (fun l => l.1) := by
        rw [List.map_map]
        apply List.map_congr_left
        intro a _
        by_cases h : layer_name a.1 = some nm <;> simp [h]
      have hnd2 : ((((layers.map
            (fun l => if layer_name l.1 = some nm then (l.1, false) else l))).map
            (fun l => l.1)).filterMap layer_name).Nodup := by
        rw [hfst]
        exact hnd
      have hmem2 : ∀ v ∈ rest,
          v ∈ (((layers.map
            (fun l => if layer_name l.1 = some nm then (l.1, false) else l))).map
            (fun l => l.1)).filterMap layer_name := by
        intro v hv
        rw [hfst]
        exact hmem v (by simp [hv])
      rw [ih _ hnd2 hmem2]
      congr 1
      rw [List.map_map]
      apply List.map_congr_left
      intro a _
      by_cases hla : layer_name a.1 = some nm
      · simp [hla, frozen_in_cons, Function.comp]
      · simp [hla, frozen_in_cons, Function.comp]

/-- C10: `build_model` with `freeze=None` (the default) modifies no
`trainable` flag (all freshly built layers stay trainable) and compiles; with
a freeze list whose names are (uniquely) names of the model's layers it sets
`trainable=False` exactly on the layers named in the list, leaves every other
layer's flag unchanged (still `True`), and compiles afterwards. -/
theorem build_model_freeze (recs : List LayerRec) (opt : String) (lo : Loss)
    (ms : List String) :
    Kdsb17.build_model recs opt lo ms none
      = Except.ok ⟨recs.map (fun r => (r, true)), opt, lo, ms, true⟩ ∧
    ∀ names : List String,
      (recs.filterMap layer_name).Nodup →
      (∀ nm ∈ names, nm ∈ recs.filterMap layer_name) →
      Kdsb17.build_model recs opt lo ms (some names)
        = Except.ok ⟨recs.map (fun r => (r, !(frozen_in names r))), opt, lo, ms, true⟩ := by
  constructor
  · rfl
  · intro names hnd hmem
    have hfst : ((recs.map (fun r => (r, true))).map (fun l => l.1)) = recs := by
      rw [List.map_map, show ((fun (l : LayerRec × Bool) => l.1) ∘ fun (r : LayerRec) => (r, true)) = id from rfl]
      exact List.map_id recs
    have h1 := apply_freeze_some names (recs.map (fun r => (r, true)))
      (by rw [hfst]; exact hnd) (by rw [hfst]; exact hmem)
    have h2 : Kdsb17.build_model recs opt lo ms (some names)
        = Except.ok ⟨(recs.map (fun r => (r, true))).map
            (fun l => (l.1, l.2 && !(frozen_in names l.1))), opt, lo, ms, true⟩ := by
      unfold build_model
      rw [h1]
      rfl
    rw [h2]
    have hmap : (recs.map (fun r => (r, true))).map
        (fun l => (l.1, l.2 && !(frozen_in names l.1)))
        = recs.map (fun r => (r, !(frozen_in names r))) := by
      rw [List.map_map]
      apply List.map_congr_left
      intro a _
      simp
    rw [hmap]

/-- Witness for C10: freezing the first encoder convolution of the small
model by name. -/
theorem build_model_freeze_witness :
    Kdsb17.build_model gmcae_small.build_layers.recs "adam" gmcae_small.loss []
        (some ["encoder_conv_1-2_0"])
      = Except.ok ⟨gmcae_small.build_layers.recs.map
          (fun r => (r, !(frozen_in ["encoder_conv_1-2_0"] r))),
          "adam", gmcae_small.loss, [], true⟩ :=
  (build_model_freeze gmcae_small.build_layers.recs "adam" gmcae_small.loss []).2
    ["encoder_conv_1-2_0"] (by decide) (by decide)

/-- Witness for C6: a float64 input of valid rank is rejected by both
predictions with the dtype error. -/
theorem check_input_array_iff_witness :
    gmcae_small.predict ⟨"float64", [1, 2, 2, 2, 1]⟩ =
      Except.error "Input array must be of type float32." ∧
    lungnet_small.predict ⟨"float64", [1, 2, 2, 2, 1]⟩ =
      Except.error "Input array must be of type float32." :=
  (check_input_array_iff gmcae_small lungnet_small ⟨"float64", [1, 2, 2, 2, 1]⟩).2 _ rfl

end Kdsb17
